import Mathlib

/-!
Verification of the Calori-Concious application (src/app.py).

The app is a single-page Streamlit tool: the user uploads a food image,
clicks an analyze control, the image bytes and a fixed instruction prompt
are sent to an external generative service, and the returned text is
rendered as raw HTML after a small character-substitution transform.

We embed the data model and the three relevant pieces of the source:
`get_gemini_response` (the try/except wrapper around the external call),
`prepare_image` (the request builder), and the right-column render logic of
`main` (lines 75-130 of src/app.py), instrumented to record both the items
displayed and the requests actually sent to the external service.
-/

/-- A byte of an uploaded file. -/
abbrev Byte := Nat

/-- The uploaded file object exposed by the file picker: its raw bytes
(Python `uploaded_file.getvalue()`) and its declared media type
(Python `uploaded_file.type`). -/
structure UploadedFile where
  getvalue : List Byte
  declType : String
deriving DecidableEq

/-- One element of the `image_parts` list built by `prepare_image` in
src/app.py: a dict with keys `mime_type` and `data`. -/
structure ImagePart where
  mime_type : String
  data : List Byte
deriving DecidableEq

/-- The external generative-model boundary: given the first image part and
the prompt text it either returns response text or raises an error carrying
a message string. -/
abbrev GeminiCall := ImagePart → String → Except String String

/-- `get_gemini_response` from src/app.py lines 16-23: inside try/except it
calls `model.generate_content([image[0], prompt])` and returns
`response.text`; any exception `e` is caught and the string
`"Error: " ++ str(e)` is returned instead.  The second component of the
result records the requests actually sent across the external boundary
(the attachment `image[0]` paired with the prompt); an empty `image` list
would make the subscript raise inside the same try block. -/
def get_gemini_response (gen : GeminiCall) (image : List ImagePart)
    (prompt : String) : String × List (ImagePart × String) :=
  match image with
  | [] => ("Error: list index out of range", [])
  | p :: _ =>
    match gen p prompt with
    | Except.ok t => (t, [(p, prompt)])
    | Except.error e => ("Error: " ++ e, [(p, prompt)])

/-- `prepare_image` from src/app.py lines 26-37: when a file is present it
returns the one-element `image_parts` list pairing the declared mime type
with the raw bytes; otherwise it returns `None`. -/
def prepare_image (uploaded_file : Option UploadedFile) :
    Option (List ImagePart) :=
  match uploaded_file with
  | some f => some [{ mime_type := f.declType, data := f.getvalue }]
  | none => none

/-- The single image part `prepare_image` builds for a present file. -/
def imagePartOf (f : UploadedFile) : ImagePart :=
  { mime_type := f.declType, data := f.getvalue }

/-- Python `s.replace(old, new)` specialised to a single-character pattern
`old` (the only shape used in src/app.py line 122): every occurrence of the
character `old` is replaced by the string `new`, all other characters are
kept. -/
def replaceChar (s : String) (old : Char) (new : String) : String :=
  String.mk (s.data.flatMap (fun c => if c = old then new.data else [c]))

/-- The display transform applied to the response on src/app.py line 122:
`response.replace('\n', '<br>').replace('•', '◆')`. -/
def formatResponse (response : String) : String :=
  replaceChar (replaceChar response '\n' "<br>") '•' "◆"

/-- The fixed instruction template from src/app.py lines 93-109. -/
def fixedPrompt : String :=
  "\n                    Please analyze this food image and provide:\n                    1. List each food item and its calories\n                    2. Total calories\n                    3. Simple health advice\n\n                    Format like this:\n                    🍽️ FOOD ITEMS:\n                    • [Food Item] - [Calories]\n                    • [Food Item] - [Calories]\n\n                    📊 TOTAL CALORIES: [Number]\n\n                    💡 HEALTH TIPS:\n                    • [Tip 1]\n                    • [Tip 2]\n                    "

/-- The part of the `.format` template on src/app.py lines 118-122 that
comes before the interpolation slot. -/
def resultDivOpen : String :=
  "\n                            <div style=\x27padding: 1.5rem; border-radius: 8px; margin-top: 1rem;\x27>\n                            "

/-- The part of the `.format` template on src/app.py lines 118-122 that
comes after the interpolation slot. -/
def resultDivClose : String :=
  "\n                            </div>\n                        "

/-- The raw markup passed to `st.markdown(..., unsafe_allow_html=True)` on
src/app.py lines 118-122: the transformed response text is concatenated
into the div template with no escaping. -/
def resultHtml (response : String) : String :=
  resultDivOpen ++ formatResponse response ++ resultDivClose

/-- The visually rendered items of the right column, in display order. -/
inductive DisplayItem where
  | imagePreview (f : UploadedFile)
  | analyzeButton
  | successBanner (msg : String)
  | rawMarkdown (html : String)
  | placeholder
deriving DecidableEq

/-- The right-column logic of `main`, src/app.py lines 75-130: when a file
is present, show its preview and the analyze control; when moreover the
control was clicked, build the request with `prepare_image`, call
`get_gemini_response` with the fixed prompt, show the success banner and
then the formatted result as raw markup.  With no file present, show only
the placeholder.  Returns the displayed items in order, paired with the
requests sent to the external service during the render. -/
def render_col2 (gen : GeminiCall) (uploaded_file : Option UploadedFile)
    (clicked : Bool) : List DisplayItem × List (ImagePart × String) :=
  match uploaded_file with
  | some f =>
    let base := [DisplayItem.imagePreview f, DisplayItem.analyzeButton]
    if clicked then
      match prepare_image (some f) with
      | some image_data =>
        let r := get_gemini_response gen image_data fixedPrompt
        (base ++ [DisplayItem.successBanner "✨ Analysis Complete!",
                  DisplayItem.rawMarkdown (resultHtml r.1)], r.2)
      | none => (base, [])
    else (base, [])
  | none => ([DisplayItem.placeholder], [])

/-- Two sequential analyze clicks, each rendered with its own current
uploaded file and its own behaviour of the external service. -/
def runTwoCycles (gen1 gen2 : GeminiCall) (f1 f2 : UploadedFile) :
    (List DisplayItem × List (ImagePart × String)) ×
    (List DisplayItem × List (ImagePart × String)) :=
  (render_col2 gen1 (some f1) true, render_col2 gen2 (some f2) true)

/-- The `type` argument passed to `st.file_uploader` on src/app.py
lines 68-72. -/
def uploaderTypes : List String := ["jpg", "jpeg", "png"]

/-- Modelled from the spec: the file picker's format filter is implemented
by the UI framework (Streamlit), not in src; per the spec it offers exactly
the files whose extension is in the declared `type` list. -/
def pickerAccepts (ext : String) : Bool := uploaderTypes.contains ext

/-- Spec-side character substitution table for the display transform: a
newline becomes `<br>`, a bullet glyph becomes `◆`, every other character
is kept unchanged. -/
def specChar (c : Char) : List Char :=
  if c = '\n' then "<br>".data else if c = '•' then ['◆'] else [c]

/-- Spec-side display transform: apply `specChar` to every character. -/
def displaySpec (s : String) : String := String.mk (s.data.flatMap specChar)

theorem bind_specChar (l : List Char) :
    ((l.flatMap (fun c => if c = '\n' then "<br>".data else [c])).flatMap
      (fun c => if c = '•' then ['◆'] else [c])) = l.flatMap specChar := by
  induction l with
  | nil => rfl
  | cons c l ih =>
    simp only [List.flatMap_cons, List.flatMap_append, ih]
    congr 1
    by_cases h1 : c = '\n'
    · subst h1; rfl
    · by_cases h2 : c = '•'
      · subst h2; rfl
      · simp [specChar, h1, h2]

theorem bind_specChar_rev (l : List Char) :
    ((l.flatMap (fun c => if c = '•' then ['◆'] else [c])).flatMap
      (fun c => if c = '\n' then "<br>".data else [c])) = l.flatMap specChar := by
  induction l with
  | nil => rfl
  | cons c l ih =>
    simp only [List.flatMap_cons, List.flatMap_append, ih]
    congr 1
    by_cases h1 : c = '•'
    · subst h1; rfl
    · by_cases h2 : c = '\n'
      · subst h2; rfl
      · simp [specChar, h1, h2]

theorem formatResponse_eq_displaySpec (s : String) :
    formatResponse s = displaySpec s :=
  congrArg String.mk (bind_specChar s.data)

/-- C1: the displayed output is the response text with every newline
replaced by the string `<br>` and every `•` glyph replaced by `◆`, and no
other character altered; in particular `"A\n• B"` renders as
`"A<br>◆ B"`. -/
theorem c1_display_transform :
    (∀ s : String, formatResponse s = displaySpec s) ∧
    formatResponse "A\n• B" = "A<br>◆ B" := by
  refine ⟨formatResponse_eq_displaySpec, ?_⟩
  decide

theorem get_gemini_response_cons (gen : GeminiCall) (p : ImagePart)
    (rest : List ImagePart) (prompt : String) :
    get_gemini_response gen (p :: rest) prompt =
      match gen p prompt with
      | Except.ok t => (t, [(p, prompt)])
      | Except.error e => ("Error: " ++ e, [(p, prompt)]) := rfl

theorem render_calls_eq (gen : GeminiCall) (f : UploadedFile) :
    (render_col2 gen (some f) true).2 = [(imagePartOf f, fixedPrompt)] := by
  show (get_gemini_response gen [imagePartOf f] fixedPrompt).2 = _
  rw [get_gemini_response_cons]
  rcases hg : gen (imagePartOf f) fixedPrompt with t | e <;> simp [hg]

/-- C2: when the external call raises an error with message `m`, the call
wrapper returns the string `"Error: " ++ m` instead of propagating the
exception; the error text is rendered in the result slot and the page still
shows the analyze control, so a subsequent click remains possible. -/
theorem c2_error_wrapped (gen : GeminiCall) (f : UploadedFile) (m : String)
    (h : gen (imagePartOf f) fixedPrompt = Except.error m) :
    (get_gemini_response gen [imagePartOf f] fixedPrompt).1 = "Error: " ++ m ∧
    DisplayItem.rawMarkdown (resultHtml ("Error: " ++ m)) ∈
      (render_col2 gen (some f) true).1 ∧
    DisplayItem.analyzeButton ∈ (render_col2 gen (some f) true).1 := by
  have hr : (get_gemini_response gen [imagePartOf f] fixedPrompt).1 =
      "Error: " ++ m := by
    rw [get_gemini_response_cons, h]
  refine ⟨hr, ?_, ?_⟩
  · show DisplayItem.rawMarkdown _ ∈
      [DisplayItem.imagePreview f, DisplayItem.analyzeButton,
       DisplayItem.successBanner "✨ Analysis Complete!",
       DisplayItem.rawMarkdown
         (resultHtml (get_gemini_response gen [imagePartOf f] fixedPrompt).1)]
    rw [hr]
    simp
  · show DisplayItem.analyzeButton ∈
      [DisplayItem.imagePreview f, DisplayItem.analyzeButton,
       DisplayItem.successBanner "✨ Analysis Complete!",
       DisplayItem.rawMarkdown
         (resultHtml (get_gemini_response gen [imagePartOf f] fixedPrompt).1)]
    simp

theorem c2_error_wrapped_witness :
    (get_gemini_response (fun _ _ => Except.error "rate limited")
      [imagePartOf ⟨[0], "image/png"⟩] fixedPrompt).1 = "Error: rate limited" ∧
    DisplayItem.rawMarkdown (resultHtml "Error: rate limited") ∈
      (render_col2 (fun _ _ => Except.error "rate limited")
        (some ⟨[0], "image/png"⟩) true).1 ∧
    DisplayItem.analyzeButton ∈
      (render_col2 (fun _ _ => Except.error "rate limited")
        (some ⟨[0], "image/png"⟩) true).1 := by
  simpa using c2_error_wrapped (fun _ _ => Except.error "rate limited")
    ⟨[0], "image/png"⟩ "rate limited" rfl

/-- C3: when no file is selected, `prepare_image` returns `None`, and the
render issues no call to the external service. -/
theorem c3_no_file_no_call :
    prepare_image none = none ∧
    ∀ (gen : GeminiCall) (clicked : Bool),
      (render_col2 gen none clicked).2 = [] :=
  ⟨rfl, fun _ _ => rfl⟩

/-- C4: for a present file, `prepare_image` produces exactly one request
pairing the raw bytes and declared media type with the fixed instruction
template, and per click the external service receives at most one request,
carrying that attachment and the prompt unmodified (exactly one on a click,
none otherwise). -/
theorem c4_single_request (gen : GeminiCall) (f : UploadedFile)
    (clicked : Bool) :
    prepare_image (some f) = some [imagePartOf f] ∧
    (render_col2 gen (some f) clicked).2 =
      (if clicked then [(imagePartOf f, fixedPrompt)] else []) := by
  refine ⟨rfl, ?_⟩
  cases clicked with
  | false => rfl
  | true => simpa using render_calls_eq gen f

/-- C5: across two sequential clicks with two different uploaded files,
each cycle's request contains exactly that cycle's bytes and media type,
with no dependence on the other cycle's file or result. -/
theorem c5_cycle_isolation (gen1 gen2 : GeminiCall) (f1 f2 : UploadedFile) :
    (runTwoCycles gen1 gen2 f1 f2).1.2 = [(imagePartOf f1, fixedPrompt)] ∧
    (runTwoCycles gen1 gen2 f1 f2).2.2 = [(imagePartOf f2, fixedPrompt)] :=
  ⟨render_calls_eq gen1 f1, render_calls_eq gen2 f2⟩

/-- C6: the upload control accepts exactly the extensions jpg, jpeg and
png: an extension is accepted by the picker precisely when it is one of
these three. -/
theorem c6_picker_extensions (ext : String) :
    pickerAccepts ext = true ↔
      (ext = "jpg" ∨ ext = "jpeg" ∨ ext = "png") := by
  unfold pickerAccepts uploaderTypes
  simp [List.contains]

/-- C7: the analyze control is rendered exactly when an uploaded image is
present; with no image, the right column shows only the placeholder - no
preview, no control, no analysis output. -/
theorem c7_action_gated (gen : GeminiCall) (uploaded : Option UploadedFile)
    (clicked : Bool) :
    (DisplayItem.analyzeButton ∈ (render_col2 gen uploaded clicked).1 ↔
      ∃ f, uploaded = some f) ∧
    (render_col2 gen none clicked).1 = [DisplayItem.placeholder] := by
  refine ⟨?_, by cases clicked <;> rfl⟩
  cases uploaded with
  | none =>
    show DisplayItem.analyzeButton ∈ [DisplayItem.placeholder] ↔ _
    simp
  | some f =>
    cases clicked with
    | false =>
      show DisplayItem.analyzeButton ∈
        [DisplayItem.imagePreview f, DisplayItem.analyzeButton] ↔ _
      simp
    | true =>
      show DisplayItem.analyzeButton ∈
        [DisplayItem.imagePreview f, DisplayItem.analyzeButton,
         DisplayItem.successBanner "✨ Analysis Complete!",
         DisplayItem.rawMarkdown
           (resultHtml
             (get_gemini_response gen [imagePartOf f] fixedPrompt).1)] ↔ _
      simp

/-- C8: the service text is embedded as raw markup with no HTML escaping:
the markup is the div template concatenated around the transformed text,
the transform is character-wise, and every character other than newline and
the bullet glyph is kept unchanged - including markup-significant
characters such as `<`, `>` and `&`. -/
theorem c8_no_escaping :
    (∀ s : String, resultHtml s =
      resultDivOpen ++ formatResponse s ++ resultDivClose) ∧
    (∀ s : String, (formatResponse s).data = s.data.flatMap specChar) ∧
    (∀ c : Char, c ≠ '\n' → c ≠ '•' → specChar c = [c]) := by
  refine ⟨fun _ => rfl, fun s => ?_, fun c h1 h2 => ?_⟩
  · exact congrArg String.data (formatResponse_eq_displaySpec s)
  · simp [specChar, h1, h2]

theorem c8_no_escaping_witness :
    resultHtml "<&>" = resultDivOpen ++ formatResponse "<&>" ++ resultDivClose ∧
    specChar '<' = ['<'] ∧ specChar '&' = ['&'] :=
  ⟨c8_no_escaping.1 "<&>",
   c8_no_escaping.2.2 '<' (by decide) (by decide),
   c8_no_escaping.2.2 '&' (by decide) (by decide)⟩

/-- C9: after every completed analysis call on a present image - whether
the external call succeeded or returned an error string - the banner
"✨ Analysis Complete!" is displayed unconditionally, and it appears
before the (possibly error) result text. -/
theorem c9_banner_unconditional (gen : GeminiCall) (f : UploadedFile) :
    (render_col2 gen (some f) true).1 =
      [DisplayItem.imagePreview f, DisplayItem.analyzeButton,
       DisplayItem.successBanner "✨ Analysis Complete!",
       DisplayItem.rawMarkdown
         (resultHtml (get_gemini_response gen [imagePartOf f] fixedPrompt).1)] :=
  rfl

/-- C10: the two substitutions of the display transform commute: replacing
newlines with `<br>` and then bullets with `◆` gives the same string as
performing the replacements in the opposite order. -/
theorem c10_replace_commute (s : String) :
    replaceChar (replaceChar s '\n' "<br>") '•' "◆" =
    replaceChar (replaceChar s '•' "◆") '\n' "<br>" :=
  (congrArg String.mk (bind_specChar s.data)).trans
    (congrArg String.mk (bind_specChar_rev s.data)).symm
